import Mathlib

/-!
Shallow embedding of the genomic-interval binning index, overlap-query
engine and format-sniffing line parser of pybedtools' C++ core
(`src/bedFile.h`, `src/bedFile.cpp`, `pybedtools/include/bedFile.cpp`).

Conventions of the embedding:
* `CHRPOS`/`BIN` (C `uint32_t`) become `Nat`; the 32-bit invariant
  (`< 2^32`) is carried as hypotheses, and the one place where u32
  wrap-around is reachable (`--end` on `end = 0`, `atoi - 1` in the VCF
  and GFF parsers) applies `% 2^32` explicitly.
* `int` intermediates (`maxStart`, `minEnd`, `overlap`) become `Int`.
* `float` arithmetic of the overlap-fraction test is modelled exactly
  over `ℚ`; the IEEE behaviour of division by zero (`+inf`, `-inf`,
  `NaN` and their comparisons) is made explicit in `Pybed.ofracGE` /
  `Srcbed.ofracGT`; rounding of large values is not modelled.
* `exit(1)` and the `cerr` messages become an explicit `fatal` result
  (`Except.error` in the helper parsers) carrying the message text; the
  parser state returned alongside a `fatal` is the state of the fields
  of `BedFile` at the moment `exit` runs.
* `bedMap` (`map<string, map<BIN, vector<BED>>>`) becomes the total
  function `BedMap := String → Nat → List BED`, empty entries being
  `[]`; `operator[]`'s insertion of empty vectors is thereby invisible,
  which is observationally equal on the stored records.
-/

set_option linter.unusedVariables false

namespace Bedtools

/-! ## Genome binning constants (`src/bedFile.h`, lines 50-64) -/

/-- `const BIN _numBins = 37450`. -/
def _numBins : Nat := 37450

/-- `const BINLEVEL _binLevels = 7`. -/
def _binLevels : Nat := 7

/-- `const BIN _binOffsetsExtended[] = {32678+4096+512+64+8+1, 4096+512+64+8+1,
    512+64+8+1, 64+8+1, 8+1, 1, 0};` — note the first summand is written
    `32678` in the source (the surrounding comment documents bins
    `4681-37449`, which would require `32768`). -/
def _binOffsetsExtended : List Nat :=
  [32678 + 4096 + 512 + 64 + 8 + 1, 4096 + 512 + 64 + 8 + 1, 512 + 64 + 8 + 1,
   64 + 8 + 1, 8 + 1, 1, 0]

/-- `const USHORT _binFirstShift = 14`. -/
def _binFirstShift : Nat := 14

/-- `const USHORT _binNextShift = 3`. -/
def _binNextShift : Nat := 3

/-- The value the code's own comment block and `_numBins` document for
    the first offset: `1 + 8 + 64 + 512 + 4096 + 32768`. -/
def documentedFirstOffset : Nat := 1 + 8 + 64 + 512 + 4096 + 32768

/-! ## `getBin` (`src/bedFile.h`, lines 85-98)

The C++ loop runs `i` over the seven levels, reading
`_binOffsetsExtended[i]`; here the loop is the structural recursion over
the offset table itself.  `none` is the fall-through after the loop,
where the source prints `"... out of range in findBin (max is 512M)"`
to `cerr` and returns bin `0`. -/

/-- One level of `getBin`: if the coarsened coordinates agree, the bin is
    this level's offset plus the coarsened start; otherwise coarsen by
    `_binNextShift` and try the next level. -/
def getBinLoop : Nat → Nat → List Nat → Option Nat
  | _, _, [] => none
  | s, e, off :: rest =>
    if s = e then some (off + s)
    else getBinLoop (s >>> _binNextShift) (e >>> _binNextShift) rest

/-- `getBin(start, end)` with the error fall-through kept observable:
    `--end` (with u32 wrap-around), shift both by `_binFirstShift`, then
    walk the levels.  `none` is the unreachable error branch. -/
def getBinO (start end_ : Nat) : Option Nat :=
  getBinLoop (start >>> _binFirstShift) (((end_ + 2 ^ 32 - 1) % 2 ^ 32) >>> _binFirstShift)
    _binOffsetsExtended

/-- `getBin` as the caller sees it: the error branch returns `0`. -/
def getBin (start end_ : Nat) : Nat :=
  (getBinO start end_).getD 0

/-! ## `isInteger` and `overlaps` (`src/bedFile.h`, lines 103-117) -/

/-- `isInteger(s)`: every character of `s` passes `isdigit`. -/
def isInteger (s : String) : Bool :=
  s.data.all Char.isDigit

/-- `overlaps(aS, aE, bS, bE) = min(aE, bE) - max(aS, bS)` as a C `int`:
    negative when the features do not touch. -/
def overlaps (aS aE bS bE : Nat) : Int :=
  (min aE bE : Int) - (max aS bS : Int)

/-! ## The candidate-bin walk shared by every query mode
(`pybedtools/include/bedFile.cpp` lines 120-166 and the identical loops
of `src/bedFile.cpp`).

`startBin = start >> _binFirstShift`, `endBin = (end-1) >> _binFirstShift`;
at each level the inclusive range `[startBin+offset, endBin+offset]` is
visited, then both are coarsened by `_binNextShift`. -/

/-- The bins visited from one level down, mirroring the outer `for` of
    the query functions; `List.range' (s + off) (e + 1 - s)` is the
    inclusive `for (BIN j = startBin+offset; j <= endBin+offset; ++j)`. -/
def visitedBinsLoop : Nat → Nat → List Nat → List Nat
  | _, _, [] => []
  | s, e, off :: rest =>
    List.range' (s + off) (e + 1 - s) ++
      visitedBinsLoop (s >>> _binNextShift) (e >>> _binNextShift) rest

/-- All bins a query with these raw coordinates visits, over the seven
    levels (`--end` with u32 wrap-around as in the source). -/
def visitedBins (start end_ : Nat) : List Nat :=
  visitedBinsLoop (start >>> _binFirstShift)
    (((end_ + 2 ^ 32 - 1) % 2 ^ 32) >>> _binFirstShift) _binOffsetsExtended

/-! ## The record model (`src/bedFile.h`, lines 67-81 and 123-305) -/

/-- `enum BedLineStatus { BED_INVALID = -1, BED_HEADER = 0, BED_BLANK = 1,
    BED_VALID = 2 }`. -/
inductive BedLineStatus
  | BED_INVALID
  | BED_HEADER
  | BED_BLANK
  | BED_VALID
deriving DecidableEq

/-- `enum FileType { BED_FILETYPE, GFF_FILETYPE, VCF_FILETYPE }`. -/
inductive FileType
  | BED_FILETYPE
  | GFF_FILETYPE
  | VCF_FILETYPE
deriving DecidableEq

/-- `struct BED` (the source's `end` is spelled `end_` here; the
    `status` member is threaded as the parser's result instead of being
    stored in the record, and the defaults are the null constructor's). -/
structure BED where
  chrom : String := ""
  start : Nat := 0
  end_ : Nat := 0
  name : String := ""
  score : String := ""
  strand : String := ""
  otherFields : List String := []
  o_start : Nat := 0
  o_end : Nat := 0
  bedType : Nat := 0
  isGff : Bool := false
  isVcf : Bool := false
deriving DecidableEq

/-- `masterBedMap`: chromosome → bin → stored records, as a total
    function with `[]` for absent entries. -/
def BedMap : Type := String → Nat → List BED

/-- The empty index. -/
def emptyMap : BedMap := fun _ _ => []

/-- Pointwise update of one `(chrom, bin)` cell. -/
def updateMap (m : BedMap) (c : String) (j : Nat) (l : List BED) : BedMap :=
  fun c' j' => if c' = c ∧ j' = j then l else m c' j'

/-- The insertion performed for each `BED_VALID` record by
    `loadBedFileIntoMap`: `bedMap[bed.chrom][getBin(bed.start, bed.end)]
    .push_back(bed)` — there is no refusal path. -/
def loadStep (m : BedMap) (bed : BED) : BedMap :=
  updateMap m bed.chrom (getBin bed.start bed.end_)
    (m bed.chrom (getBin bed.start bed.end_) ++ [bed])

/-! ## The shared shape of the query loops

All six query functions of each variant run the same candidate-bin walk
and differ only in the per-candidate test and in what they accumulate;
the loop bodies below are the common translation, instantiated with
each overload's own test. -/

/-- The inner `for (; bedItr != bedEnd; ++bedItr)` of the enumerate
    overloads: on acceptance the *stored* record's `o_start`/`o_end`
    are assigned through the non-const iterator and the record is then
    copied into `hits`.  Returns `(the bin's vector after the scan, the
    records pushed to hits, in order)`. -/
def scanList (q : BED) (p : BED → Bool) : List BED → List BED × List BED
  | [] => ([], [])
  | c :: rest =>
    let r := scanList q p rest
    if p c then
      ({ c with o_start := max q.start c.start, o_end := min q.end_ c.end_ } :: r.1,
       { c with o_start := max q.start c.start, o_end := min q.end_ c.end_ } :: r.2)
    else (c :: r.1, r.2)

/-- The outer bin loop of the enumerate overloads, threading the mutated
    map and accumulating `hits`. -/
def findOverlapsGo (q : BED) (p : BED → Bool) : List Nat → List BED × BedMap → List BED × BedMap
  | [], acc => acc
  | j :: rest, (hits, m) =>
    let r := scanList q p (m q.chrom j)
    findOverlapsGo q p rest (hits ++ r.2, updateMap m q.chrom j r.1)

namespace Pybed

/-! ### `pybedtools/include/bedFile.cpp`: the overlap-fraction test
(lines 137-161 and the analogous blocks of the other five overloads). -/

/-- `ofrac >= overlapFraction` where `ofrac = (overlap/size)` is a
    `float` division: when `size = 0` the quotient is `+inf` (accepted),
    `-inf` or `NaN` (both rejected by `>=`); otherwise the exact
    quotient. -/
def ofracGE (overlap : Int) (size t : ℚ) : Bool :=
  if size = 0 then decide (0 < overlap)
  else decide (t ≤ (overlap : ℚ) / size)

/-- The strand-agnostic acceptance test:
    `(ofrac >= overlapFraction) || ((size == 0) && (overlap == 0))`. -/
def acceptHit (q c : BED) (t : ℚ) : Bool :=
  let size : ℚ := (q.end_ : ℚ) - (q.start : ℚ)
  let overlap : Int := (min q.end_ c.end_ : Int) - (max q.start c.start : Int)
  ofracGE overlap size t || (decide (size = 0) && decide (overlap = 0))

/-- The strand-enforcing acceptance test:
    `(bed.strand == bedItr->strand) && ((ofrac >= overlapFraction) ||
    ((size == 0) && (overlap == 0)))`. -/
def acceptHitStrand (q c : BED) (t : ℚ) : Bool :=
  decide (q.strand = c.strand) && acceptHit q c t

/-- `vector<BED> FindOverlapsPerBin(const BED &bed, float overlapFraction)`
    (strand-agnostic enumerate), with the mutated `bedMap` returned as
    the second component. -/
def FindOverlapsPerBin (m : BedMap) (bed : BED) (overlapFraction : ℚ) : List BED × BedMap :=
  findOverlapsGo bed (fun c => acceptHit bed c overlapFraction)
    (visitedBins bed.start bed.end_) ([], m)

/-- `vector<BED> FindOverlapsPerBin(const BED &bed, bool forceStrand,
    float overlapFraction)`: the strand-enforcing enumerate overload.
    Its body never reads `forceStrand`. -/
def FindOverlapsPerBinStrand (m : BedMap) (bed : BED) (forceStrand : Bool)
    (overlapFraction : ℚ) : List BED × BedMap :=
  findOverlapsGo bed (fun c => acceptHitStrand bed c overlapFraction)
    (visitedBins bed.start bed.end_) ([], m)

/-- `int FindAnyOverlapsPerBin(const BED &bed, float overlapFraction)`:
    short-circuit existence, `const_iterator`, no mutation. -/
def FindAnyOverlapsPerBin (m : BedMap) (bed : BED) (overlapFraction : ℚ) : Nat :=
  if (visitedBins bed.start bed.end_).any
      (fun j => (m bed.chrom j).any (fun c => acceptHit bed c overlapFraction))
  then 1 else 0

/-- The strand-enforcing existence overload; `forceStrand` is never read. -/
def FindAnyOverlapsPerBinStrand (m : BedMap) (bed : BED) (forceStrand : Bool)
    (overlapFraction : ℚ) : Nat :=
  if (visitedBins bed.start bed.end_).any
      (fun j => (m bed.chrom j).any (fun c => acceptHitStrand bed c overlapFraction))
  then 1 else 0

/-- `int CountOverlapsPerBin(const BED &bed, float overlapFraction)`:
    accumulate a count, `const_iterator`, no mutation. -/
def CountOverlapsPerBin (m : BedMap) (bed : BED) (overlapFraction : ℚ) : Nat :=
  (visitedBins bed.start bed.end_).foldl
    (fun n j => n + (m bed.chrom j).countP (fun c => acceptHit bed c overlapFraction)) 0

/-- The strand-enforcing count overload; `forceStrand` is never read. -/
def CountOverlapsPerBinStrand (m : BedMap) (bed : BED) (forceStrand : Bool)
    (overlapFraction : ℚ) : Nat :=
  (visitedBins bed.start bed.end_).foldl
    (fun n j => n + (m bed.chrom j).countP (fun c => acceptHitStrand bed c overlapFraction)) 0

end Pybed

namespace Srcbed

/-! ### `src/bedFile.cpp`: the historical variant of the test
(lines 136-148 and the analogous blocks): plain
`(float)(overlap / size) > overlapFraction`, strict and without the
zero-length exception. -/

/-- `(float)(overlap / size) > overlapFraction`: `+inf` is accepted,
    `-inf` and `NaN` (the `0/0` of a zero-length query with zero
    overlap) are rejected. -/
def ofracGT (overlap : Int) (size t : ℚ) : Bool :=
  if size = 0 then decide (0 < overlap)
  else decide (t < (overlap : ℚ) / size)

/-- Strand-agnostic acceptance of the historical variant. -/
def acceptGT (q c : BED) (t : ℚ) : Bool :=
  let size : ℚ := (q.end_ : ℚ) - (q.start : ℚ)
  let overlap : Int := (min q.end_ c.end_ : Int) - (max q.start c.start : Int)
  ofracGT overlap size t

/-- Strand-enforcing acceptance of the historical variant:
    `... > overlapFraction && (bed.strand == bedItr->strand)`;
    `forceStrand` is likewise never read. -/
def acceptGTStrand (q c : BED) (t : ℚ) : Bool :=
  acceptGT q c t && decide (q.strand = c.strand)

/-- The historical strand-agnostic enumerate overload (same loops and
    same in-place `o_start`/`o_end` assignment as the pybedtools one). -/
def FindOverlapsPerBin (m : BedMap) (bed : BED) (overlapFraction : ℚ) : List BED × BedMap :=
  findOverlapsGo bed (fun c => acceptGT bed c overlapFraction)
    (visitedBins bed.start bed.end_) ([], m)

/-- The historical strand-enforcing enumerate overload; `forceStrand` is
    never read. -/
def FindOverlapsPerBinStrand (m : BedMap) (bed : BED) (forceStrand : Bool)
    (overlapFraction : ℚ) : List BED × BedMap :=
  findOverlapsGo bed (fun c => acceptGTStrand bed c overlapFraction)
    (visitedBins bed.start bed.end_) ([], m)

/-- The historical strand-enforcing existence overload. -/
def FindAnyOverlapsPerBinStrand (m : BedMap) (bed : BED) (forceStrand : Bool)
    (overlapFraction : ℚ) : Nat :=
  if (visitedBins bed.start bed.end_).any
      (fun j => (m bed.chrom j).any (fun c => acceptGTStrand bed c overlapFraction))
  then 1 else 0

/-- The historical strand-enforcing count overload. -/
def CountOverlapsPerBinStrand (m : BedMap) (bed : BED) (forceStrand : Bool)
    (overlapFraction : ℚ) : Nat :=
  (visitedBins bed.start bed.end_).foldl
    (fun n j => n + (m bed.chrom j).countP (fun c => acceptGTStrand bed c overlapFraction)) 0

end Srcbed

/-! ## The line parser / format sniffer (`src/bedFile.h`, lines 388-638)

`exit(1)` becomes the `fatal` constructor carrying the `cerr`/`printf`
text (the state paired with a `fatal` is the state of the `BedFile`
fields at the moment `exit` runs); `return false` of the three
`parse*Line` helpers becomes `Except.ok none`. -/

/-- `isspace` characters skipped by `atoi`. -/
def isSpaceChar (c : Char) : Bool :=
  c = ' ' || c = '\t' || c = '\n' || c = '\x0b' || c = '\x0c' || c = '\r'

/-- The digit-accumulation loop of `atoi`, stopping at the first
    non-digit. -/
def atoiLoop : List Char → Nat → Nat
  | [], acc => acc
  | c :: cs, acc => if c.isDigit then atoiLoop cs (acc * 10 + (c.toNat - 48)) else acc

/-- C `atoi`: skip whitespace, optional sign, then leading digits;
    `0` when no digits follow (overflow of the C `int` is not modelled). -/
def atoi (s : String) : Int :=
  match s.data.dropWhile isSpaceChar with
  | '-' :: rest => -(atoiLoop rest 0 : Int)
  | '+' :: rest => (atoiLoop rest 0 : Int)
  | l => (atoiLoop l 0 : Int)

/-- Conversion of a C `int` value to `CHRPOS` (`uint32_t`): reduction
    modulo `2^32`, the wrap-around the source relies on for `atoi(...) - 1`
    underflow. -/
def u32 (i : Int) : Nat :=
  (i % (2 ^ 32 : Int)).toNat

/-- `lineVector[0].find("track") != npos || ... "browser" ... || ... "#" ...`:
    the first field marks a header line when it contains any of the three
    as a substring. -/
def isHeaderField (s : String) : Bool :=
  decide ("track".data <:+: s.data) || decide ("browser".data <:+: s.data) ||
    decide ("#".data <:+: s.data)

/-- The per-file parser state: `_typeIsKnown`, `_fileType`, `bedType`,
    `_isGff`, `_isVcf`, `_lineNum` of `class BedFile`. -/
structure ParserState where
  typeIsKnown : Bool := false
  fileType : FileType := FileType.BED_FILETYPE
  bedType : Nat := 0
  isGff : Bool := false
  isVcf : Bool := false
  lineNum : Nat := 0
deriving DecidableEq

/-- What one call of `parseLine` does to the caller: either a
    `BedLineStatus` together with the (possibly default) record, or a
    process abort (`exit(1)`) with the reported message. -/
inductive LineResult
  | status : BedLineStatus → BED → LineResult
  | fatal : String → LineResult
deriving DecidableEq

/-- `lineVector[i]` of the source: total lookup with `""` out of
    range (every read in the source is guarded by a field count). -/
def field (lv : List String) (i : Nat) : String :=
  lv.getD i ""

/-- `parseBedLine` (`src/bedFile.h`, lines 468-532).  The `< 0`
    coordinate branches are unreachable with unsigned coordinates and are
    omitted; `numFields == 0` is the only path to `return false`. -/
def parseBedLine (bedType : Nat) (isGff isVcf : Bool) (lineNum : Nat)
    (lv : List String) : Except String (Option BED) :=
  let numFields := lv.length
  if numFields = bedType then
    let bed : BED := { chrom := field lv 0, start := u32 (atoi (field lv 1)),
                       end_ := u32 (atoi (field lv 2)), bedType := bedType,
                       isGff := isGff, isVcf := isVcf }
    let sanity : BED → Except String (Option BED) := fun b =>
      if b.start ≤ b.end_ then Except.ok (some b)
      else Except.error ("Error: malformed BED entry at line " ++ toString lineNum ++
        ". Start was greater than end. Exiting.")
    if bedType = 4 then sanity { bed with name := field lv 3 }
    else if bedType = 5 then sanity { bed with name := field lv 3, score := field lv 4 }
    else if bedType = 6 then
      sanity { bed with name := field lv 3, score := field lv 4, strand := field lv 5 }
    else if 6 < bedType then
      sanity { bed with name := field lv 3, score := field lv 4, strand := field lv 5,
                        otherFields := lv.drop 6 }
    else if bedType ≠ 3 then
      Except.error ("Error: unexpected number of fields at line: " ++ toString lineNum ++
        ".  Verify that your files are TAB-delimited.  Exiting...")
    else sanity bed
  else if numFields = 1 then
    Except.error ("Only one BED field detected: " ++ toString lineNum ++
      ".  Verify that your files are TAB-delimited.  Exiting...")
  else if numFields ≠ 0 then
    Except.error ("Differing number of BED fields encountered at line: " ++ toString lineNum ++
      ".  Exiting...")
  else Except.ok none

/-- `parseVcfLine` (`src/bedFile.h`, lines 539-585).  `start` is
    `atoi(...) - 1` with u32 wrap-around, `end` is `start` plus the REF
    allele length; a line with `start = 0` (VCF position 1) fails the
    `start > 0` sanity gate and is the one reachable `return false`
    besides `numFields == 0`. -/
def parseVcfLine (bedType : Nat) (isGff isVcf : Bool) (lineNum : Nat)
    (lv : List String) : Except String (Option BED) :=
  let numFields := lv.length
  if numFields = bedType then
    let start := u32 (atoi (field lv 1) - 1)
    let bed : BED := { chrom := field lv 0, start := start,
                       end_ := (start + (field lv 3).length) % 2 ^ 32,
                       strand := "+", bedType := bedType, isGff := isGff, isVcf := isVcf,
                       name := (field lv 3 ++ "/" ++ field lv 4) ++
                         (if field lv 2 ≠ "." then "_" ++ field lv 2 else ""),
                       otherFields := if 2 < bedType then lv.drop 2 else [] }
    if bed.start ≤ bed.end_ ∧ 0 < bed.start ∧ 0 < bed.end_ then Except.ok (some bed)
    else if bed.end_ < bed.start then
      Except.error ("Error: malformed VCF entry at line " ++ toString lineNum ++
        ". Start was greater than end. Exiting.")
    else Except.ok none
  else if numFields = 1 then
    Except.error ("Only one VCF field detected: " ++ toString lineNum ++
      ".  Verify that your files are TAB-delimited.  Exiting...")
  else if numFields ≠ 0 then
    Except.error ("Differing number of VCF fields encountered at line: " ++ toString lineNum ++
      ".  Exiting...")
  else Except.ok none

/-- `parseGffLine` (`src/bedFile.h`, lines 593-638).  Nine columns with
    `start = atoi(...) - 1` (u32 wrap-around), GFF `source`, `frame` and
    `group` kept in `otherFields`. -/
def parseGffLine (bedType : Nat) (isGff isVcf : Bool) (lineNum : Nat)
    (lv : List String) : Except String (Option BED) :=
  let numFields := lv.length
  if numFields = bedType then
    if bedType = 9 ∧ isGff then
      let bed : BED := { chrom := field lv 0, start := u32 (atoi (field lv 3) - 1),
                         end_ := u32 (atoi (field lv 4)), name := field lv 2,
                         score := field lv 5, strand := field lv 6,
                         bedType := bedType, isGff := isGff, isVcf := isVcf,
                         otherFields := [field lv 1, field lv 7, field lv 8] }
      if bed.end_ < bed.start then
        Except.error ("Error: malformed GFF entry at line " ++ toString lineNum ++
          ". Start was greater than end. Exiting.")
      else Except.ok (some bed)
    else
      Except.error ("Error: unexpected number of fields at line: " ++ toString lineNum ++
        ".  Verify that your files are TAB-delimited and that your GFF file has 9 fields.  Exiting...")
  else if numFields = 1 then
    Except.error ("Only one GFF field detected: " ++ toString lineNum ++
      ".  Verify that your files are TAB-delimited.  Exiting...")
  else if numFields ≠ 0 then
    Except.error ("Differing number of GFF fields encountered at line: " ++ toString lineNum ++
      ".  Exiting...")
  else Except.ok none

/-- Tail of the `switch` fall-through: the `GFF_FILETYPE` case; its
    `return false` falls into `default:`, which prints
    `"ERROR: file type encountered. Exiting"` and exits. -/
def fallGff (st : ParserState) (lv : List String) : LineResult × ParserState :=
  match parseGffLine st.bedType st.isGff st.isVcf st.lineNum lv with
  | Except.error m => (LineResult.fatal m, st)
  | Except.ok (some bed) => (LineResult.status BedLineStatus.BED_VALID bed, st)
  | Except.ok none => (LineResult.fatal "ERROR: file type encountered. Exiting", st)

/-- The `VCF_FILETYPE` case: on `return false` control falls through
    into the `GFF_FILETYPE` case (the `switch` has no `break`s). -/
def fallVcf (st : ParserState) (lv : List String) : LineResult × ParserState :=
  match parseVcfLine st.bedType st.isGff st.isVcf st.lineNum lv with
  | Except.error m => (LineResult.fatal m, st)
  | Except.ok (some bed) => (LineResult.status BedLineStatus.BED_VALID bed, st)
  | Except.ok none => fallGff st lv

/-- The `switch (_fileType)` of `parseLine` once the type is known,
    with its case fall-throughs. -/
def dispatchKnown (st : ParserState) (lv : List String) : LineResult × ParserState :=
  match st.fileType with
  | FileType.BED_FILETYPE =>
    match parseBedLine st.bedType st.isGff st.isVcf st.lineNum lv with
    | Except.error m => (LineResult.fatal m, st)
    | Except.ok (some bed) => (LineResult.status BedLineStatus.BED_VALID bed, st)
    | Except.ok none => fallVcf st lv
  | FileType.VCF_FILETYPE => fallVcf st lv
  | FileType.GFF_FILETYPE => fallGff st lv

/-- Packaging of one sniff arm's outcome: `true` from the parse helper
    is `BED_VALID`; `false` drops to the `return BED_INVALID` at the end
    of `parseLine` (the partially filled record the C++ caller would
    hold is replaced by the default record, which no caller of a
    non-`BED_VALID` status reads). -/
def sniffResult : Except String (Option BED) → LineResult
  | Except.error m => LineResult.fatal m
  | Except.ok (some bed) => LineResult.status BedLineStatus.BED_VALID bed
  | Except.ok none => LineResult.status BedLineStatus.BED_INVALID {}

/-- `parseLine` (`src/bedFile.h`, lines 389-461): blank line, header
    line (with the `_lineNum--` quirk; the u32 wrap at `0` cannot occur
    because `GetNextBed` increments first), the `< 3`-columns abort, the
    known-type dispatch, and the first-data-line format sniffing in its
    priority order (BED, then VCF, then GFF, else abort). -/
def parseLine (st : ParserState) (lineVector : List String) : LineResult × ParserState :=
  let numFields := lineVector.length
  if numFields = 0 then (LineResult.status BedLineStatus.BED_BLANK {}, st)
  else if isHeaderField (field lineVector 0) then
    (LineResult.status BedLineStatus.BED_HEADER {}, { st with lineNum := st.lineNum - 1 })
  else if 3 ≤ numFields then
    if st.typeIsKnown then dispatchKnown st lineVector
    else if isInteger (field lineVector 1) ∧ isInteger (field lineVector 2) then
      let st' : ParserState :=
        { st with isGff := false, isVcf := false, fileType := FileType.BED_FILETYPE,
                  typeIsKnown := true, bedType := numFields }
      (sniffResult (parseBedLine st'.bedType st'.isGff st'.isVcf st'.lineNum lineVector), st')
    else if isInteger (field lineVector 1) ∧ 8 ≤ numFields then
      let st' : ParserState :=
        { st with isGff := false, isVcf := true, fileType := FileType.VCF_FILETYPE,
                  typeIsKnown := true, bedType := numFields }
      (sniffResult (parseVcfLine st'.bedType st'.isGff st'.isVcf st'.lineNum lineVector), st')
    else if numFields = 9 ∧ isInteger (field lineVector 3) ∧
        isInteger (field lineVector 4) then
      let st' : ParserState :=
        { st with isGff := true, isVcf := false, fileType := FileType.GFF_FILETYPE,
                  typeIsKnown := true, bedType := numFields }
      (sniffResult (parseGffLine st'.bedType st'.isGff st'.isVcf st'.lineNum lineVector), st')
    else
      (LineResult.fatal ("Unexpected file format.  Please use tab-delimited BED, GFF, or VCF. " ++
        "Perhaps you have non-integer starts or ends at line " ++ toString st.lineNum ++ "?"), st)
  else
    (LineResult.fatal ("It looks as though you have less than 3 columns at line: " ++
      toString st.lineNum ++ ".  Are you sure your files are tab-delimited?"), st)

/-! ## Supporting lemmas -/

theorem shiftRight_le_shiftRight {a b : Nat} (k : Nat) (h : a ≤ b) : a >>> k ≤ b >>> k := by
  simp only [Nat.shiftRight_eq_div_pow]
  exact Nat.div_le_div_right h

theorem shiftRight3_lt {s k : Nat} (h : s < 2 ^ (3 * k + 3)) : s >>> 3 < 2 ^ (3 * k) := by
  rw [Nat.shiftRight_eq_div_pow]
  rw [Nat.div_lt_iff_lt_mul (by norm_num : (0 : Nat) < 2 ^ 3)]
  calc s < 2 ^ (3 * k + 3) := h
    _ = 2 ^ (3 * k) * 2 ^ 3 := by rw [pow_add]

/-- Within the levels still to be tried, coordinates bounded by the
    capacity of the remaining levels always reach equality before the
    offset table is exhausted. -/
theorem getBinLoop_isSome : ∀ (offs : List Nat) (s e : Nat), offs ≠ [] →
    s < 2 ^ (3 * (offs.length - 1)) → e < 2 ^ (3 * (offs.length - 1)) →
    (getBinLoop s e offs).isSome = true
  | [], _, _, h, _, _ => absurd rfl h
  | [off], s, e, _, hs, he => by
    have hs0 : s = 0 := by simpa using hs
    have he0 : e = 0 := by simpa using he
    simp [getBinLoop, hs0, he0]
  | off :: r :: rs, s, e, _, hs, he => by
    by_cases hse : s = e
    · simp [getBinLoop, hse]
    · have hexp : 3 * ((off :: r :: rs : List Nat).length - 1) =
          3 * ((r :: rs : List Nat).length - 1) + 3 := by
        simp [List.length_cons]
        omega
      rw [hexp] at hs he
      rw [getBinLoop, if_neg hse]
      exact getBinLoop_isSome (r :: rs) (s >>> _binNextShift) (e >>> _binNextShift)
        (by simp) (shiftRight3_lt hs) (shiftRight3_lt he)

/-- Any common point `pc` of the stored interval and the query interval
    forces the stored interval's bin into the visited range at the level
    where `getBinLoop` returns. -/
theorem getBinLoop_mem_visitedBinsLoop : ∀ (offs : List Nat) (s e qs qe pc b : Nat),
    s ≤ pc → pc ≤ e → qs ≤ pc → pc ≤ qe → getBinLoop s e offs = some b →
    b ∈ visitedBinsLoop qs qe offs
  | [], _, _, _, _, _, _, _, _, _, _, hb => by simp [getBinLoop] at hb
  | off :: rest, s, e, qs, qe, pc, b, h1, h2, h3, h4, hb => by
    by_cases hse : s = e
    · rw [getBinLoop, if_pos hse, Option.some.injEq] at hb
      have hpc : pc = s := le_antisymm (hse ▸ h2) h1
      rw [visitedBinsLoop]
      apply List.mem_append_left
      rw [List.mem_range'_1]
      omega
    · rw [getBinLoop, if_neg hse] at hb
      rw [visitedBinsLoop]
      apply List.mem_append_right
      exact getBinLoop_mem_visitedBinsLoop rest _ _ _ _ (pc >>> _binNextShift) b
        (shiftRight_le_shiftRight _ h1) (shiftRight_le_shiftRight _ h2)
        (shiftRight_le_shiftRight _ h3) (shiftRight_le_shiftRight _ h4) hb

/-- A 32-bit coordinate shifted by `_binFirstShift` fits the capacity of
    the seven levels. -/
theorem shift14_lt_bound (x : Nat) (hx : x < 2 ^ 32) :
    x >>> _binFirstShift < 2 ^ (3 * (_binOffsetsExtended.length - 1)) := by
  have hlen : _binOffsetsExtended.length = 7 := by rfl
  rw [hlen]
  show x >>> _binFirstShift < 2 ^ 18
  simp only [_binFirstShift, Nat.shiftRight_eq_div_pow]
  omega

/-! ## Claim theorems -/

/-- C1: for every stored interval inserted at `getBin(i.start, i.end)`
    and every query with positive overlap (`min(q.end, i.end) -
    max(q.start, i.start) > 0`), the candidate-bin walk of the query
    modes visits the stored interval's bin at some level, so the
    interval is examined as a candidate — no false negatives. -/
theorem c1_overlap_bin_coverage (qs qe is' ie : Nat)
    (hqe : qe < 2 ^ 32) (his : is' < 2 ^ 32) (hie : ie < 2 ^ 32)
    (hov : 0 < overlaps qs qe is' ie) :
    getBin is' ie ∈ visitedBins qs qe := by
  have hmm : max qs is' < min qe ie := by exact_mod_cast Int.sub_pos.mp hov
  have hqs_p : qs ≤ max qs is' := le_max_left _ _
  have his_p : is' ≤ max qs is' := le_max_right _ _
  have hp_qe : max qs is' < qe := lt_of_lt_of_le hmm (min_le_left _ _)
  have hp_ie : max qs is' < ie := lt_of_lt_of_le hmm (min_le_right _ _)
  have hfix_q : (qe + 2 ^ 32 - 1) % 2 ^ 32 = qe - 1 := by
    have h : qe + 2 ^ 32 - 1 = (qe - 1) + 2 ^ 32 := by omega
    rw [h, Nat.add_mod_right, Nat.mod_eq_of_lt (by omega)]
  have hfix_i : (ie + 2 ^ 32 - 1) % 2 ^ 32 = ie - 1 := by
    have h : ie + 2 ^ 32 - 1 = (ie - 1) + 2 ^ 32 := by omega
    rw [h, Nat.add_mod_right, Nat.mod_eq_of_lt (by omega)]
  have hsome := getBinLoop_isSome _binOffsetsExtended (is' >>> _binFirstShift)
    ((ie - 1) >>> _binFirstShift) (by simp [_binOffsetsExtended])
    (shift14_lt_bound is' his) (shift14_lt_bound (ie - 1) (by omega))
  obtain ⟨b, hb⟩ := Option.isSome_iff_exists.mp hsome
  unfold getBin getBinO visitedBins
  rw [hfix_q, hfix_i, hb]
  simp only [Option.getD_some]
  exact getBinLoop_mem_visitedBinsLoop _binOffsetsExtended _ _ _ _
    (max qs is' >>> _binFirstShift) b
    (shiftRight_le_shiftRight _ his_p)
    (shiftRight_le_shiftRight _ (by omega : max qs is' ≤ ie - 1))
    (shiftRight_le_shiftRight _ hqs_p)
    (shiftRight_le_shiftRight _ (by omega : max qs is' ≤ qe - 1)) hb

/-- C1 witness: the concrete stored interval `(150, 250)` and query
    `(100, 200)` overlap by `50`, and the stored interval's bin is
    visited by the query's walk. -/
theorem c1_overlap_bin_coverage_witness :
    0 < overlaps 100 200 150 250 ∧ getBin 150 250 ∈ visitedBins 100 200 :=
  ⟨by decide,
   c1_overlap_bin_coverage 100 200 150 250 (by norm_num) (by norm_num) (by norm_num) (by decide)⟩

/-- C4 (code bug): the source writes `32678` where its own comment block
    (bins `4681-37449`) and `_numBins = 37450` require `32768`, so the
    first level offset is `37359`, not the documented `37449`; the other
    six entries match, and the typo makes the level-0 namespace start
    `90` bins below the end of the level-1 namespace. -/
theorem c4_offset_table_typo :
    _binOffsetsExtended.getD 0 0 = 37359 ∧
    32678 + 4096 + 512 + 64 + 8 + 1 = 37359 ∧
    documentedFirstOffset = 37449 ∧
    _binOffsetsExtended ≠ [37449, 4681, 585, 73, 9, 1, 0] ∧
    _binOffsetsExtended.tail = [4681, 585, 73, 9, 1, 0] ∧
    _numBins = documentedFirstOffset + 1 ∧
    _binOffsetsExtended.getD 0 0 = _binOffsetsExtended.getD 1 0 + 32678 := by
  refine ⟨by decide, by decide, by decide, by decide, by decide, by decide, by decide⟩

/-- The interval of C5's counterexample: span `2^30` (1 Gbp), exceeding
    the 512 Mbp the spec names as the maximum representable span. -/
def c5bed : BED := { chrom := "chr1", start := 0, end_ := 2 ^ 30 }

/-- C5 counterexample: an interval spanning more than 512 Mbp is *not*
    refused — `getBin` returns normally (level 6, bin `0`, no error
    fall-through) and the build pass inserts the interval at bin `0`. -/
theorem c5_counterexample :
    2 ^ 29 < c5bed.end_ - c5bed.start ∧
    getBinO c5bed.start c5bed.end_ = some 0 ∧
    getBin c5bed.start c5bed.end_ = 0 ∧
    loadStep emptyMap c5bed "chr1" 0 = [c5bed] := by
  refine ⟨by decide, by decide, by decide, by decide⟩

/-- C5 amended: for 32-bit coordinates the seven-level loop always finds
    a level (the error fall-through of `getBin` — which would print a
    message and return bin `0`, not refuse — is unreachable), and the
    build pass appends every valid record at `getBin`'s result with no
    refusal path. -/
theorem c5_span_error_unreachable (s e : Nat) (m : BedMap) (bed : BED)
    (hs : s < 2 ^ 32) :
    (getBinO s e).isSome = true ∧
    loadStep m bed bed.chrom (getBin bed.start bed.end_) =
      m bed.chrom (getBin bed.start bed.end_) ++ [bed] := by
  constructor
  · unfold getBinO
    exact getBinLoop_isSome _binOffsetsExtended _ _ (by simp [_binOffsetsExtended])
      (shift14_lt_bound s hs)
      (shift14_lt_bound _ (Nat.mod_lt _ (by norm_num)))
  · simp [loadStep, updateMap]

/-- C5 amended witness: instantiated at coordinates `(3, 77)` and a
    concrete insertion. -/
theorem c5_span_error_unreachable_witness :
    (getBinO 3 77).isSome = true ∧
    loadStep emptyMap c5bed c5bed.chrom (getBin c5bed.start c5bed.end_) =
      emptyMap c5bed.chrom (getBin c5bed.start c5bed.end_) ++ [c5bed] :=
  c5_span_error_unreachable 3 77 emptyMap c5bed (by norm_num)

/-- A zero-length query cannot positively overlap anything:
    `min(q.end, c.end) ≤ q.end = q.start ≤ max(q.start, c.start)`. -/
theorem overlap_nonpos_of_size_zero (q c : BED) (h : (q.end_ : ℚ) - (q.start : ℚ) = 0) :
    (min q.end_ c.end_ : Int) - (max q.start c.start : Int) ≤ 0 := by
  have hqe : q.end_ = q.start := by exact_mod_cast sub_eq_zero.mp h
  have hle : min q.end_ c.end_ ≤ max q.start c.start :=
    calc min q.end_ c.end_ ≤ q.end_ := min_le_left _ _
      _ = q.start := hqe
      _ ≤ max q.start c.start := le_max_left _ _
  have : (min q.end_ c.end_ : Int) ≤ (max q.start c.start : Int) := by exact_mod_cast hle
  omega

namespace Pybed

/-- The acceptance condition as the spec sentence states it (the
    refinement side of C2): accept iff `overlap / query_len ≥ t`, or the
    query has zero length and `overlap = 0` (with the ratio only
    consulted for a nonzero denominator, per the spec's own numeric
    caveat for `query_len = 0`). -/
def acceptSpec (q c : BED) (t : ℚ) : Bool :=
  let qlen : ℚ := (q.end_ : ℚ) - (q.start : ℚ)
  let overlap : Int := (min q.end_ c.end_ : Int) - (max q.start c.start : Int)
  decide ((qlen ≠ 0 ∧ t ≤ (overlap : ℚ) / qlen) ∨ (qlen = 0 ∧ overlap = 0))

/-- The float test of the source coincides with the spec's exact-number
    acceptance condition (the `+inf` branch of a zero denominator with
    positive overlap is unreachable). -/
theorem acceptHit_eq_acceptSpec (q c : BED) (t : ℚ) :
    acceptHit q c t = acceptSpec q c t := by
  simp only [acceptHit, acceptSpec, ofracGE]
  by_cases hz : (q.end_ : ℚ) - (q.start : ℚ) = 0
  · have hov := overlap_nonpos_of_size_zero q c hz
    have h0 : ¬ ((0 : Int) < (min q.end_ c.end_ : Int) - (max q.start c.start : Int)) := by
      omega
    simp [hz, h0]
  · simp [hz]

end Pybed

/-- The records pushed to `hits` by the candidate scan are exactly the
    accepted candidates, copied with the clipped intersection filled in. -/
theorem scanList_snd_eq_filter_map (q : BED) (p : BED → Bool) (l : List BED) :
    (scanList q p l).2 =
      (l.filter p).map
        (fun c => { c with o_start := max q.start c.start, o_end := min q.end_ c.end_ }) := by
  induction l with
  | nil => rfl
  | cons c rest ih =>
    simp only [scanList, List.filter_cons]
    cases hp : p c
    · simp [hp, ih]
    · simp [hp, ih]

/-- C2: in the strand-agnostic enumerate mode's candidate scan (the
    inner loop of `Pybed.FindOverlapsPerBin` over a visited bin), a
    candidate is pushed to `hits` iff the spec's acceptance condition
    holds — `overlap / query_len ≥ t`, or zero query length with zero
    overlap — and each pushed copy carries `o_start = max(q.start,
    c.start)` and `o_end = min(q.end, c.end)`. -/
theorem c2_enumerate_accept_iff (q : BED) (t : ℚ) (cand : List BED) :
    (scanList q (fun c => Pybed.acceptHit q c t) cand).2 =
      (cand.filter (fun c => Pybed.acceptSpec q c t)).map
        (fun c => { c with o_start := max q.start c.start, o_end := min q.end_ c.end_ }) := by
  rw [scanList_snd_eq_filter_map]
  simp only [Pybed.acceptHit_eq_acceptSpec]

/-- The candidate of C3's counterexample. -/
def c3cand : BED := { chrom := "chr1", start := 5, end_ := 10 }

/-- The index of C3's counterexample: `c3cand` stored at its bin. -/
def c3map : BedMap := updateMap emptyMap "chr1" 37359 [c3cand]

/-- The zero-length query of C3's counterexample. -/
def c3query : BED := { chrom := "chr1", start := 5, end_ := 5 }

/-- C3 counterexample: the zero-length query `(chr1,5,5)` touches the
    stored `(chr1,5,10)` with overlap exactly `0`, yet the historical
    variant's strand-agnostic enumerate mode (`src/bedFile.cpp`, strict
    `>` on a `0/0` ratio, i.e. `NaN`) returns no hit even at threshold
    `0` — not every query mode accepts such a candidate. -/
theorem c3_counterexample :
    c3query.start = c3query.end_ ∧
    overlaps c3query.start c3query.end_ c3cand.start c3cand.end_ = 0 ∧
    c3map "chr1" (getBin c3cand.start c3cand.end_) = [c3cand] ∧
    (Srcbed.FindOverlapsPerBin c3map c3query 0).1 = [] := by
  refine ⟨by decide, by decide, by decide, ?_⟩
  have hacc : Srcbed.acceptGT c3query c3cand 0 = false := by
    norm_num [Srcbed.acceptGT, Srcbed.ofracGT, c3query, c3cand]
  have hbins : visitedBins c3query.start c3query.end_ = [37359, 4681, 585, 73, 9, 1, 0] := by
    decide
  simp [Srcbed.FindOverlapsPerBin, hbins, findOverlapsGo, scanList, c3map, updateMap,
    emptyMap, hacc]

/-- C3 amended: a zero-length query with overlap exactly `0` is accepted
    by the pybedtools variant's strand-agnostic test at every threshold,
    by its strand-enforcing test exactly when the strands agree, and is
    always rejected by the historical `src/bedFile.cpp` tests (whose
    `0/0` ratio is `NaN` under a strict `>`). -/
theorem c3_zero_length_accept (q c : BED) (t : ℚ)
    (hz : q.start = q.end_)
    (hov : overlaps q.start q.end_ c.start c.end_ = 0) :
    Pybed.acceptHit q c t = true ∧
    (Pybed.acceptHitStrand q c t = true ↔ q.strand = c.strand) ∧
    Srcbed.acceptGT q c t = false ∧
    Srcbed.acceptGTStrand q c t = false := by
  simp only [overlaps] at hov
  have hsize : (q.end_ : ℚ) - (q.start : ℚ) = 0 := by rw [hz]; ring
  simp [Pybed.acceptHit, Pybed.acceptHitStrand, Pybed.ofracGE,
    Srcbed.acceptGT, Srcbed.acceptGTStrand, Srcbed.ofracGT, hsize, hov]

/-- C3 amended witness: instantiated at the query `(chr1,5,5)`, the
    candidate `(chr1,5,10)` and threshold `3/4`. -/
theorem c3_zero_length_accept_witness :
    Pybed.acceptHit c3query c3cand (3 / 4) = true ∧
    (Pybed.acceptHitStrand c3query c3cand (3 / 4) = true ↔ c3query.strand = c3cand.strand) ∧
    Srcbed.acceptGT c3query c3cand (3 / 4) = false ∧
    Srcbed.acceptGTStrand c3query c3cand (3 / 4) = false :=
  c3_zero_length_accept c3query c3cand (3 / 4) (by decide) (by decide)

/-- Erase the query-output fields of a record, for stating what a query
    may and may not change about stored records. -/
def clearOverlap (c : BED) : BED :=
  { c with o_start := 0, o_end := 0 }

theorem clearOverlap_update (c : BED) (a b : Nat) :
    clearOverlap { c with o_start := a, o_end := b } = clearOverlap c := rfl

/-- The scan rewrites a bin's vector only in the `o_start`/`o_end`
    fields of accepted records. -/
theorem scanList_fst_map_clearOverlap (q : BED) (p : BED → Bool) (l : List BED) :
    ((scanList q p l).1).map clearOverlap = l.map clearOverlap := by
  induction l with
  | nil => rfl
  | cons c rest ih =>
    simp only [scanList]
    cases hp : p c
    · simp [hp, ih]
    · simp [hp, ih, clearOverlap_update]

/-- The enumerate loop's threaded map agrees with the input map on every
    cell up to `o_start`/`o_end`. -/
theorem findOverlapsGo_map_clearOverlap (q : BED) (p : BED → Bool) :
    ∀ (bins : List Nat) (hits : List BED) (m : BedMap) (ch : String) (j : Nat),
      (((findOverlapsGo q p bins (hits, m)).2) ch j).map clearOverlap =
        (m ch j).map clearOverlap := by
  intro bins
  induction bins with
  | nil => intro hits m ch j; rfl
  | cons b rest ih =>
    intro hits m ch j
    simp only [findOverlapsGo]
    rw [ih]
    by_cases hcj : ch = q.chrom ∧ j = b
    · obtain ⟨h1, h2⟩ := hcj
      subst h1
      subst h2
      simp [updateMap, scanList_fst_map_clearOverlap]
    · simp [updateMap, hcj]

/-- The stored record of C7's counterexample (fresh record,
    `o_start = o_end = 0`). -/
def c7cand : BED := { chrom := "chr1", start := 150, end_ := 250 }

/-- The index of C7's counterexample. -/
def c7map : BedMap := updateMap emptyMap "chr1" 37359 [c7cand]

/-- The query of C7's counterexample (overlap `50`, accepted at
    threshold `0`). -/
def c7query : BED := { chrom := "chr1", start := 100, end_ := 200 }

/-- C7 counterexample: after the strand-agnostic enumerate query, the
    record stored in the index has had its `o_start`/`o_end` overwritten
    in place (through the non-const iterator) — the stored records are
    not unchanged. -/
theorem c7_counterexample :
    c7map "chr1" 37359 = [c7cand] ∧
    c7cand.o_start = 0 ∧ c7cand.o_end = 0 ∧
    (Pybed.FindOverlapsPerBin c7map c7query 0).2 "chr1" 37359 =
      [{ c7cand with o_start := 150, o_end := 200 }] ∧
    (Pybed.FindOverlapsPerBin c7map c7query 0).2 "chr1" 37359 ≠ c7map "chr1" 37359 := by
  have hacc : Pybed.acceptHit c7query c7cand 0 = true := by
    norm_num [Pybed.acceptHit, Pybed.ofracGE, c7query, c7cand]
  have hch : c7query.chrom = "chr1" := rfl
  have hmax : max c7query.start c7cand.start = 150 := by decide
  have hmin : min c7query.end_ c7cand.end_ = 200 := by decide
  have h3 : (Pybed.FindOverlapsPerBin c7map c7query 0).2 "chr1" 37359 =
      [{ c7cand with o_start := 150, o_end := 200 }] := by
    simp only [Pybed.FindOverlapsPerBin]
    rw [show visitedBins c7query.start c7query.end_ = [37359, 4681, 585, 73, 9, 1, 0] from
      by decide]
    simp [findOverlapsGo, scanList, c7map, updateMap, emptyMap, hacc, hch, hmax, hmin]
  refine ⟨by decide, by decide, by decide, h3, ?_⟩
  rw [h3]
  decide

/-- C7 amended: every enumerate overload — strand-agnostic and
    strand-enforcing, in both source variants — preserves every stored
    record up to its `o_start`/`o_end` fields (accepted candidates get
    those two fields overwritten in place, and the same values appear on
    the returned copies); chromosomes, coordinates, annotations, order
    and multiplicity of the stored records are unchanged on every cell
    of the index. -/
theorem c7_stored_records_frame (m : BedMap) (q : BED) (t : ℚ) (fs : Bool)
    (ch : String) (j : Nat) :
    (((Pybed.FindOverlapsPerBin m q t).2) ch j).map clearOverlap =
      (m ch j).map clearOverlap ∧
    (((Pybed.FindOverlapsPerBinStrand m q fs t).2) ch j).map clearOverlap =
      (m ch j).map clearOverlap ∧
    (((Srcbed.FindOverlapsPerBin m q t).2) ch j).map clearOverlap =
      (m ch j).map clearOverlap ∧
    (((Srcbed.FindOverlapsPerBinStrand m q fs t).2) ch j).map clearOverlap =
      (m ch j).map clearOverlap := by
  refine ⟨?_, ?_, ?_, ?_⟩ <;>
  · simp only [Pybed.FindOverlapsPerBin, Pybed.FindOverlapsPerBinStrand,
      Srcbed.FindOverlapsPerBin, Srcbed.FindOverlapsPerBinStrand]
    exact findOverlapsGo_map_clearOverlap q _ _ [] m ch j

/-- Hits of the enumerate loop that are not inherited from the
    accumulator come from a candidate accepted by the test, copied with
    the clipped intersection. -/
theorem findOverlapsGo_fst_mem (q : BED) (p : BED → Bool) :
    ∀ (bins : List Nat) (hits : List BED) (m : BedMap) (h : BED),
      h ∈ (findOverlapsGo q p bins (hits, m)).1 →
      h ∈ hits ∨ ∃ c, p c = true ∧
        h = { c with o_start := max q.start c.start, o_end := min q.end_ c.end_ } := by
  intro bins
  induction bins with
  | nil => intro hits m h hm; exact Or.inl hm
  | cons b rest ih =>
    intro hits m h hm
    simp only [findOverlapsGo] at hm
    rcases ih _ _ _ hm with hin | hex
    · rcases List.mem_append.mp hin with h1 | h2
      · exact Or.inl h1
      · right
        rw [scanList_snd_eq_filter_map] at h2
        obtain ⟨c, hc, rfl⟩ := List.mem_map.mp h2
        exact ⟨c, (List.mem_filter.mp hc).2, rfl⟩
    · exact Or.inr hex

/-- C9: the strand-enforcing overloads of `FindOverlapsPerBin`,
    `FindAnyOverlapsPerBin` and `CountOverlapsPerBin` — in both source
    variants — never read their `forceStrand` argument, so their results
    are independent of it; and they require `q.strand = c.strand`
    unconditionally, so every hit returned by the enumerate overloads
    carries the query's strand (they never behave strand-agnostically). -/
theorem c9_forceStrand_ignored (m : BedMap) (q : BED) (t : ℚ) (a b : Bool) :
    Pybed.FindOverlapsPerBinStrand m q a t = Pybed.FindOverlapsPerBinStrand m q b t ∧
    Pybed.FindAnyOverlapsPerBinStrand m q a t = Pybed.FindAnyOverlapsPerBinStrand m q b t ∧
    Pybed.CountOverlapsPerBinStrand m q a t = Pybed.CountOverlapsPerBinStrand m q b t ∧
    Srcbed.FindOverlapsPerBinStrand m q a t = Srcbed.FindOverlapsPerBinStrand m q b t ∧
    Srcbed.FindAnyOverlapsPerBinStrand m q a t = Srcbed.FindAnyOverlapsPerBinStrand m q b t ∧
    Srcbed.CountOverlapsPerBinStrand m q a t = Srcbed.CountOverlapsPerBinStrand m q b t ∧
    (∀ h ∈ (Pybed.FindOverlapsPerBinStrand m q a t).1, h.strand = q.strand) ∧
    (∀ h ∈ (Srcbed.FindOverlapsPerBinStrand m q a t).1, h.strand = q.strand) := by
  refine ⟨rfl, rfl, rfl, rfl, rfl, rfl, ?_, ?_⟩
  · intro h hm
    simp only [Pybed.FindOverlapsPerBinStrand] at hm
    rcases findOverlapsGo_fst_mem q _ _ [] m h hm with hin | ⟨c, hpc, rfl⟩
    · simp at hin
    · simp only [Pybed.acceptHitStrand, Bool.and_eq_true] at hpc
      exact (of_decide_eq_true hpc.1).symm
  · intro h hm
    simp only [Srcbed.FindOverlapsPerBinStrand] at hm
    rcases findOverlapsGo_fst_mem q _ _ [] m h hm with hin | ⟨c, hpc, rfl⟩
    · simp at hin
    · simp only [Srcbed.acceptGTStrand, Bool.and_eq_true] at hpc
      exact (of_decide_eq_true hpc.2).symm

/-- The parser state of C6's counterexample: committed to BED with three
    columns, currently at data line 2. -/
def c6state : ParserState :=
  { typeIsKnown := true, fileType := FileType.BED_FILETYPE, bedType := 3, lineNum := 2 }

/-- C6 counterexample: a five-field line in a file committed to
    `column_count = 3` does not produce an observable, non-fatal
    Malformed status — `parseLine` aborts the whole process
    (`exit(1)`), reporting the line number in the message. -/
theorem c6_counterexample :
    parseLine c6state ["chr1", "10", "20", "a", "b"] =
      (LineResult.fatal "Differing number of BED fields encountered at line: 2.  Exiting...",
       c6state) := by
  decide

/-- C6 amended: a malformed data line is fatal, not recoverable — a
    non-header line with at least three fields whose count differs from
    the committed `column_count` (whichever of the three formats the
    file is committed to), or a first data line matching no recognized
    format, makes the parser print a message naming the line number and
    terminate the whole build via `exit(1)`; no Malformed status is
    returned to the caller. -/
theorem c6_malformed_is_fatal (st : ParserState) (lv : List String)
    (hhdr : isHeaderField (field lv 0) = false)
    (h3 : 3 ≤ lv.length) :
    (st.typeIsKnown = true → lv.length ≠ st.bedType →
      (parseLine st lv).1 = LineResult.fatal
        ("Differing number of " ++
          (match st.fileType with
           | FileType.BED_FILETYPE => "BED"
           | FileType.GFF_FILETYPE => "GFF"
           | FileType.VCF_FILETYPE => "VCF") ++
         " fields encountered at line: " ++ toString st.lineNum ++ ".  Exiting...")) ∧
    (st.typeIsKnown = false →
      ¬ (isInteger (field lv 1) ∧ isInteger (field lv 2)) →
      ¬ (isInteger (field lv 1) ∧ 8 ≤ lv.length) →
      ¬ (lv.length = 9 ∧ isInteger (field lv 3) ∧ isInteger (field lv 4)) →
      parseLine st lv = (LineResult.fatal
        ("Unexpected file format.  Please use tab-delimited BED, GFF, or VCF. " ++
         "Perhaps you have non-integer starts or ends at line " ++ toString st.lineNum ++ "?"),
       st)) := by
  have h0 : ¬ (lv.length = 0) := by omega
  have h1 : ¬ (lv.length = 1) := by omega
  constructor
  · intro hT hNe
    cases hFT : st.fileType
    · simp [parseLine, dispatchKnown, parseBedLine, h0, h1, hhdr, h3, hT, hFT, hNe]
    · simp [parseLine, dispatchKnown, fallGff, parseGffLine, h0, h1, hhdr, h3, hT, hFT, hNe]
    · simp [parseLine, dispatchKnown, fallVcf, parseVcfLine, h0, h1, hhdr, h3, hT, hFT, hNe]
  · intro hU hA hB hC
    simp [parseLine, h0, hhdr, h3, hU, hA, hB, hC]

/-- C6 amended witness: the committed-BED state of the counterexample
    against another five-field line. -/
theorem c6_malformed_is_fatal_witness :
    (parseLine c6state ["chrX", "1", "2", "q", "r"]).1 = LineResult.fatal
      ("Differing number of " ++ "BED" ++ " fields encountered at line: " ++
        toString c6state.lineNum ++ ".  Exiting...") :=
  (c6_malformed_is_fatal c6state ["chrX", "1", "2", "q", "r"] (by decide) (by decide)).1
    (by decide) (by decide)

/-- A fresh parser state at line 1, for the sniffing claims. -/
def c8state : ParserState := { lineNum := 1 }

/-- C8 counterexample: a first data line with ten fields, non-integer
    `fields[1]`/`fields[2]` and integer `fields[3]`/`fields[4]` is not
    sniffed as GFF with `column_count = 10` — the parser aborts with the
    unexpected-format error and the format stays unknown. -/
theorem c8_counterexample :
    parseLine c8state ["chr1", "x", "y", "100", "200", ".", "+", ".", "id", "extra"] =
      (LineResult.fatal ("Unexpected file format.  Please use tab-delimited BED, GFF, or VCF. " ++
        "Perhaps you have non-integer starts or ends at line 1?"), c8state) ∧
    (parseLine c8state
        ["chr1", "x", "y", "100", "200", ".", "+", ".", "id", "extra"]).2.typeIsKnown = false := by
  refine ⟨by decide, by decide⟩

/-- C8 amended: on a first data line where `fields[1]` is not
    integer-valued (so neither the BED nor the VCF rule fires) and
    `fields[3]`, `fields[4]` are integer-valued, a line with *exactly*
    nine fields is sniffed as GFF with `column_count = 9` (the record
    outcome being `parseGffLine`'s); a line with strictly more than nine
    fields is not sniffed as GFF but aborts with the unexpected-format
    error, leaving the format unknown. -/
theorem c8_gff_sniff_exactly_nine (st : ParserState) (lv : List String)
    (hU : st.typeIsKnown = false)
    (hhdr : isHeaderField (field lv 0) = false)
    (h1 : isInteger (field lv 1) = false)
    (h3i : isInteger (field lv 3) = true)
    (h4i : isInteger (field lv 4) = true) :
    (lv.length = 9 →
      (parseLine st lv).2 =
        { st with isGff := true, isVcf := false, fileType := FileType.GFF_FILETYPE,
                  typeIsKnown := true, bedType := 9 } ∧
      (parseLine st lv).1 = sniffResult (parseGffLine 9 true false st.lineNum lv)) ∧
    (9 < lv.length →
      parseLine st lv = (LineResult.fatal
        ("Unexpected file format.  Please use tab-delimited BED, GFF, or VCF. " ++
         "Perhaps you have non-integer starts or ends at line " ++ toString st.lineNum ++ "?"),
       st)) := by
  constructor
  · intro h9
    have h0 : ¬ (lv.length = 0) := by omega
    have h3 : 3 ≤ lv.length := by omega
    constructor
    · simp [parseLine, h0, hhdr, h3, hU, h1, h9, h3i, h4i]
    · simp [parseLine, h0, hhdr, h3, hU, h1, h9, h3i, h4i]
  · intro h9
    have h0 : ¬ (lv.length = 0) := by omega
    have h3 : 3 ≤ lv.length := by omega
    have h9' : ¬ (lv.length = 9) := by omega
    simp [parseLine, h0, hhdr, h3, hU, h1, h9']

/-- C8 amended witness: a genuine nine-field GFF first line is sniffed
    as GFF with `column_count = 9`. -/
theorem c8_gff_sniff_exactly_nine_witness :
    (parseLine c8state ["chr1", "src", "gene", "100", "200", ".", "+", ".", "id"]).2 =
      { c8state with isGff := true, isVcf := false, fileType := FileType.GFF_FILETYPE,
                     typeIsKnown := true, bedType := 9 } ∧
    (parseLine c8state ["chr1", "src", "gene", "100", "200", ".", "+", ".", "id"]).1 =
      sniffResult (parseGffLine 9 true false c8state.lineNum
        ["chr1", "src", "gene", "100", "200", ".", "+", ".", "id"]) :=
  (c8_gff_sniff_exactly_nine c8state ["chr1", "src", "gene", "100", "200", ".", "+", ".", "id"]
    (by decide) (by decide) (by decide) (by decide) (by decide)).1 (by decide)

/-- C10: `isInteger` accepts exactly the strings of decimal digits; in
    particular the empty string passes (every-character quantification
    over no characters), so a first data line with empty `fields[1]` and
    `fields[2]` is sniffed as BED with `start = end = 0` (`atoi("") = 0`)
    and accepted as a valid record, while any numeral with a leading
    sign fails `isInteger`. -/
theorem c10_isInteger_characterization :
    (∀ s : String, isInteger s = true ↔ ∀ ch ∈ s.data, ch.isDigit = true) ∧
    isInteger "" = true ∧
    (∀ s : String, isInteger (String.mk ('-' :: s.data)) = false ∧
        isInteger (String.mk ('+' :: s.data)) = false) ∧
    parseLine { lineNum := 1 } ["chr1", "", ""] =
      (LineResult.status BedLineStatus.BED_VALID
        { chrom := "chr1", start := 0, end_ := 0, bedType := 3 },
       { typeIsKnown := true, fileType := FileType.BED_FILETYPE, bedType := 3, lineNum := 1 }) := by
  refine ⟨?_, by decide, ?_, by decide⟩
  · intro s
    simp [isInteger, List.all_eq_true]
  · intro s
    have hminus : ('-').isDigit = false := by decide
    have hplus : ('+').isDigit = false := by decide
    constructor
    · simp [isInteger, hminus]
    · simp [isInteger, hplus]

end Bedtools
